import Mathlib

/-!
Shallow embedding of the acquisition state machine and capture loop of
`src/libminiscope/miniscope.cpp` (the PoMiDAQ `MiniScope` driver), together
with theorems that settle the claims of the specification against it.

Modelling conventions:
* `ScopeState` mirrors the fields of `MiniScopeData` that the claims touch;
  machine integers are `Int` / `Nat`, device floating-point values are `ℚ`.
* The camera handle (`cv::VideoCapture`) is reduced to the `camOpen` flag and
  to the pure functions computing the values pushed onto its property
  channels; the success of `cam.open` is an oracle argument `openOk` where a
  caller consults it (the source never checks its result).
* The capture loop body (`MiniScope::captureThread`) becomes a step function
  `captureStep` on an explicit `LoopState`, driven by a list of per-iteration
  inputs (`IterInput`: trigger bit, grab result, retrieve result, wall-clock
  delta, video-writer initialization result).  `runLoop` folds the step over
  the inputs while `running` holds, exactly like the `while` loop.
* The external `VideoWriter` collaborator is instrumented by counters
  (`initCount`, `finalizeCount`, `encodeCount`) plus its `initialized()`
  flag `writerInit`; a division whose divisor may be zero is embedded as an
  `Option`-valued computation (`none` = a division by zero occurred).
-/

namespace MiniScope

/-- One frame as it travels through the ring buffer in the loop model.
Pixel contents are irrelevant to the loop-level claims, so frames are
abstracted to their provenance: the synthetic "Frame Dropped!" placeholder
image, or a display frame published on a successful iteration. -/
inductive LoopFrame where
  | droppedImage : LoopFrame
  | display : LoopFrame
  deriving DecidableEq

/-- The fields of `MiniScopeData` (miniscope.cpp lines 33-100) that the
claims are about.  `camOpen` stands for the low-level `cv::VideoCapture`
handle being open. -/
structure ScopeState where
  exposure : Int
  gain : Int
  excitation : Int
  connected : Bool
  camOpen : Bool
  running : Bool
  recording : Bool
  failed : Bool
  checkRecTrigger : Bool
  droppedFramesCount : Nat
  deriving DecidableEq

/-- Constructor defaults: `MiniScopeData::MiniScopeData` (lines 36-57) and
`MiniScope::MiniScope` (lines 104-112). -/
def initialScopeState : ScopeState :=
  { exposure := 100, gain := 32, excitation := 1, connected := false,
    camOpen := false, running := false, recording := false, failed := false,
    checkRecTrigger := false, droppedFramesCount := 0 }

/-- `MiniScope::fail` (lines 150-156): clears `recording` and `running`,
sets `failed`; the message emission carries no state. -/
def failTransition (s : ScopeState) : ScopeState :=
  { s with recording := false, running := false, failed := true }

/-- The sanitization of `MiniScope::setExposure` (lines 163-172): an input of
exactly `0` becomes `1`, inputs above `100` become `100`; no other change. -/
def exposureSanitized (value : Int) : Int :=
  let v1 := if value = 0 then 1 else value
  if v1 > 100 then 100 else v1

/-- `MiniScope::setExposure` (lines 163-172) as a state transformer; the
stored value is read back by `MiniScope::exposure` (lines 174-177). -/
def setExposure (s : ScopeState) (value : Int) : ScopeState :=
  { s with exposure := exposureSanitized value }

/-- `MiniScope::setGain` (lines 179-183). -/
def setGain (s : ScopeState) (value : Int) : ScopeState :=
  { s with gain := value }

/-- The device value `MiniScope::setLed` (lines 402-413) computes for the
LED control channel: the input is clamped from above at 100 (only), then
divided by 2 and by 100 (`double ledPower = value / 2 / 100`). -/
def setLedValue (value : Int) : ℚ :=
  let v1 : Int := if value > 100 then 100 else value
  ((v1 : ℚ) / 2) / 100

/-- `MiniScope::setExcitation` (lines 190-194): stores the raw value and
forwards it to `setLed` (whose effect on the device is `setLedValue`). -/
def setExcitation (s : ScopeState) (value : Int) : ScopeState :=
  { s with excitation := value }

/-- `MiniScope::connect` (lines 201-227).  `openOk` is the (unchecked)
result of `d->cam.open(d->scopeCamId)`.  Returns the C++ return value
paired with the post-state. -/
def connect (openOk : Bool) (s : ScopeState) : Bool × ScopeState :=
  if s.connected then (false, s)
  else
    let s1 := { s with camOpen := openOk }
    let s2 := setExcitation (setGain (setExposure s1 100) 32) 1
    (true, { s2 with connected := true })

/-- `MiniScope::stop` (lines 252-257): clears `running` and `recording`,
then joins the capture thread (no further state effect). -/
def stop (s : ScopeState) : ScopeState :=
  { s with running := false, recording := false }

/-- `MiniScope::disconnect` (lines 229-234): `stop()` then
`d->cam.release()`.  Note that the `connected` flag is not touched. -/
def disconnect (s : ScopeState) : ScopeState :=
  { stop s with camOpen := false }

/-- `MiniScope::startCaptureThread` (lines 121-126): joins any previous
thread, sets `running := true` and spawns the loop. -/
def startCaptureThread (s : ScopeState) : ScopeState :=
  { s with running := true }

/-- `MiniScope::run` (lines 236-250).  `openOk` is the oracle for the
`cam.open` performed by the recovery `connect()`. -/
def run (openOk : Bool) (s : ScopeState) : Bool × ScopeState :=
  if !s.connected then (false, s)
  else if s.failed then
    let s1 := disconnect s
    match connect openOk s1 with
    | (false, s2) => (false, s2)
    | (true, s2) => (true, startCaptureThread s2)
  else (true, startCaptureThread s)

/-- `MiniScope::startRecording` (lines 259-274): requires `connected`,
implicitly calls `run()` when not running, then records the start time and
sets `recording := true`.  The filename capture carries no modelled state. -/
def startRecording (openOk : Bool) (s : ScopeState) : Bool × ScopeState :=
  if !s.connected then (false, s)
  else
    let r := if !s.running then run openOk s else (true, s)
    if !r.1 then (false, r.2)
    else (true, { r.2 with recording := true })

/-- `MiniScope::stopRecording` (lines 276-279). -/
def stopRecording (s : ScopeState) : ScopeState :=
  { s with recording := false }

/-- The public accessor `MiniScope::recording` (lines 286-289):
`return d->running && d->recording;`. -/
def recordingAccessor (s : ScopeState) : Bool :=
  s.running && s.recording

/-- Capacity of `d->frameRing`, fixed at construction
(`boost::circular_buffer<cv::Mat>(64)`, line 47). -/
def frameRingCapacity : Nat := 64

/-- `MiniScope::addFrameToBuffer` (lines 415-419): `push_back` on a full
`boost::circular_buffer` overwrites the front, i.e. evicts the oldest
entry and appends the new one. -/
def ringPush {α : Type} (ring : List α) (f : α) : List α :=
  if ring.length = frameRingCapacity then ring.tail ++ [f] else ring ++ [f]

/-- Pushing a sequence of frames one by one. -/
def ringPushAll {α : Type} (ring : List α) (fs : List α) : List α :=
  fs.foldl ringPush ring

/-- `MiniScope::currentFrame` (lines 328-338): returns the empty sentinel
frame (`none`) on an empty buffer, otherwise pops and returns the front
(oldest) entry. -/
def currentFrameOp {α : Type} (ring : List α) : Option α × List α :=
  match ring with
  | [] => (none, [])
  | f :: rest => (some f, rest)

/-- The telemetry computation of the capture loop (lines 499-502):
`currentFPS = 1 / (delayTime.count() / 1000.0)` where `delayTime` is the
wall-clock delta in milliseconds.  The division is embedded as an
`Option`: `none` means the divisor `deltaMs / 1000` is zero, i.e. a
division by zero occurs (there is no guard in the source). -/
def computeFPS (deltaMs : Nat) : Option ℚ :=
  let delaySec : ℚ := (deltaMs : ℚ) / 1000
  if delaySec = 0 then none else some (1 / delaySec)

/-- A color frame split into its three channel planes (`cv::split` order:
blue, green, red), each a list of pixel intensities. -/
structure ColorFrame where
  blue : List Nat
  green : List Nat
  red : List Nat
  deriving DecidableEq

/-- `cv::Mat::zeros(frame.rows, frame.cols, CV_8UC1)` for a channel plane:
a zero plane of the same size. -/
def zerosLike (c : List Nat) : List Nat :=
  List.replicate c.length 0

/-- The color-mode channel-visibility transform (lines 520-534): when at
least one of the three visibility flags is set, split the frame, replace
every invisible plane by zeros and merge the planes back *into `frame`
itself*; when all three flags are false the block is skipped entirely. -/
def colorVisibilityMerge (sRed sGreen sBlue : Bool) (frame : ColorFrame) :
    ColorFrame :=
  if sRed || sGreen || sBlue then
    { blue := if sBlue then frame.blue else zerosLike frame.blue,
      green := if sGreen then frame.green else zerosLike frame.green,
      red := if sRed then frame.red else zerosLike frame.red }
  else frame

/-- Frame publication of one successful color-mode iteration (lines 517-518,
520-534, 581-585): `displayFrame` is copied from `frame` *before* the
visibility transform mutates `frame`; then `displayFrame` is pushed into
the ring buffer and `frame` is handed to `vwriter->encodeFrame`.  The
result is `(ring-buffer frame, recorded frame)`. -/
def colorModePublish (sRed sGreen sBlue : Bool) (frame : ColorFrame) :
    ColorFrame × ColorFrame :=
  let displayFrame := frame
  let frame2 := colorVisibilityMerge sRed sGreen sBlue frame
  (displayFrame, frame2)

/-- The per-iteration inputs of the capture loop that come from outside the
modelled state: the external GPIO trigger bit (lines 451-465), the results
of `cam.grab()` (line 467) and `cam.retrieve(frame)` (lines 473-478), the
wall-clock delta of the telemetry update (lines 499-502), and whether
`vwriter->initialize(...)` succeeds when attempted (lines 552-561). -/
structure IterInput where
  trigBit : Bool
  grabOk : Bool
  retrieveOk : Bool
  deltaMs : Nat
  initOk : Bool
  deriving DecidableEq

/-- The state carried across capture-loop iterations: the shared
`MiniScopeData` fields, the shared frame ring, the telemetry value, the
loop-local `VideoWriter` status (`vwriter->initialized()`), the loop-local
`recordFrames` flag, and instrumentation counters for the Recorder calls
(`initialize`, `finalize`-of-an-initialized-writer, `encodeFrame`). -/
structure LoopState where
  ms : ScopeState
  ring : List LoopFrame
  currentFPS : Option ℚ
  writerInit : Bool
  recordFrames : Bool
  initCount : Nat
  finalizeCount : Nat
  encodeCount : Nat
  deriving DecidableEq

/-- The external-trigger check at the top of each iteration (lines
451-465): only when `checkRecTrigger` is enabled, the trigger bit forces
`recording` on or off. -/
def triggerCheck (ms : ScopeState) (trigBit : Bool) : ScopeState :=
  if ms.checkRecTrigger then
    if trigBit then { ms with recording := true }
    else { ms with recording := false }
  else ms

/-- The failed-retrieve branch (lines 480-497): force `recording := false`,
increment `droppedFramesCount`, push the placeholder image into the ring,
release and reopen the camera (the count is always `> 0` here), and call
`fail` when the count exceeds 80; then `continue`. -/
def dropHandle (st : LoopState) (ms1 : ScopeState) : LoopState :=
  let ms2 := { ms1 with recording := false,
                        droppedFramesCount := ms1.droppedFramesCount + 1,
                        camOpen := true }
  let ms3 := if 80 < ms2.droppedFramesCount then failTransition ms2 else ms2
  { st with ms := ms3, ring := ringPush st.ring LoopFrame.droppedImage }

/-- The successful-retrieve tail of an iteration (lines 499-586): telemetry
update, drift correction (reset of `droppedFramesCount`), recorder
orchestration (`initialize` when recording and not yet initialized —
failure calls `fail` and breaks — `finalize` + reset when not recording but
frames were being recorded), and the publish step (ring push of the
display frame, `encodeFrame` when `recordFrames`). -/
def goodHandle (st : LoopState) (ms1 : ScopeState) (deltaMs : Nat)
    (initOk : Bool) : LoopState :=
  let fps := computeFPS deltaMs
  let ms2 := if 0 < ms1.droppedFramesCount
    then { ms1 with droppedFramesCount := 0 } else ms1
  if ms2.running && ms2.recording then
    if st.writerInit then
      { st with ms := ms2, currentFPS := fps,
                ring := ringPush st.ring LoopFrame.display,
                encodeCount := st.encodeCount +
                  (if st.recordFrames then 1 else 0) }
    else if initOk then
      { st with ms := ms2, currentFPS := fps, writerInit := true,
                recordFrames := true, initCount := st.initCount + 1,
                ring := ringPush st.ring LoopFrame.display,
                encodeCount := st.encodeCount + 1 }
    else
      { st with ms := failTransition ms2, currentFPS := fps }
  else
    if st.recordFrames then
      { st with ms := ms2, currentFPS := fps, writerInit := false,
                recordFrames := false,
                finalizeCount := st.finalizeCount + 1,
                ring := ringPush st.ring LoopFrame.display }
    else
      { st with ms := ms2, currentFPS := fps,
                ring := ringPush st.ring LoopFrame.display }

/-- One iteration of the capture loop body (lines 447-588), assuming the
top-of-loop `running` check passed: trigger check, grab (fatal failure
calls `fail` and breaks), retrieve (soft failure goes to `dropHandle`),
otherwise the successful tail. -/
def captureStep (st : LoopState) (inp : IterInput) : LoopState :=
  let ms1 := triggerCheck st.ms inp.trigBit
  if inp.grabOk = false then { st with ms := failTransition ms1 }
  else if inp.retrieveOk = false then dropHandle st ms1
  else goodHandle st ms1 inp.deltaMs inp.initOk

/-- The `while (self->d->running)` loop (line 447) folded over a list of
per-iteration inputs; when `running` is observed false the remaining
inputs are never consumed. -/
def runLoop (st : LoopState) : List IterInput → LoopState
  | [] => st
  | inp :: rest => if st.ms.running then runLoop (captureStep st inp) rest else st

/-- Modelled from the spec: the `finalize()` of the external Recorder flushes an
initialized writer and is a no-op on a writer that was never initialized
(the Recorder "must be explicitly finalized to flush"; `VideoWriter` is a
collaborator outside src/).  Used for the unconditional terminal
`vwriter->finalize()` at line 591. -/
def finalizeWriter (st : LoopState) : LoopState :=
  if st.writerInit then
    { st with writerInit := false, finalizeCount := st.finalizeCount + 1 }
  else st

/-- `MiniScope::captureThread` (lines 421-592) as a whole: reset
`droppedFramesCount` (line 441), start with a fresh `VideoWriter` and
`recordFrames = false` (lines 444-445), run the loop, then perform the
terminal `vwriter->finalize()` (line 591). -/
def captureThread (ms : ScopeState) (ring : List LoopFrame)
    (inputs : List IterInput) : LoopState :=
  finalizeWriter (runLoop
    { ms := { ms with droppedFramesCount := 0 }, ring := ring,
      currentFPS := none, writerInit := false, recordFrames := false,
      initCount := 0, finalizeCount := 0, encodeCount := 0 } inputs)

/-- A connected controller in the `failed` state (reachable via `connect`
followed by a capture-loop `fail`). -/
def failedConnectedState : ScopeState :=
  { initialScopeState with connected := true, camOpen := true, failed := true }

/-- A connected controller with the capture loop running. -/
def connectedRunningState : ScopeState :=
  { initialScopeState with connected := true, camOpen := true, running := true }

/-- A loop state for a freshly started capture thread over
`connectedRunningState`. -/
def runningLoopState : LoopState :=
  { ms := connectedRunningState, ring := [], currentFPS := none,
    writerInit := false, recordFrames := false, initCount := 0,
    finalizeCount := 0, encodeCount := 0 }

/-- A loop state in which `recording` was just enabled but the writer is
not yet initialized. -/
def recordingLoopState : LoopState :=
  { runningLoopState with ms := { connectedRunningState with recording := true } }

/-- A capture-loop iteration whose retrieve fails (grab succeeded). -/
def dropInput (d : Nat) : IterInput :=
  { trigBit := false, grabOk := true, retrieveOk := false, deltaMs := d,
    initOk := true }

/-- A fully successful capture-loop iteration. -/
def goodInput (d : Nat) : IterInput :=
  { trigBit := false, grabOk := true, retrieveOk := true, deltaMs := d,
    initOk := true }

/-! ## Helper lemmas -/

theorem runLoop_nil (st : LoopState) : runLoop st [] = st := rfl

theorem runLoop_cons (st : LoopState) (inp : IterInput) (rest : List IterInput) :
    runLoop st (inp :: rest) =
      if st.ms.running then runLoop (captureStep st inp) rest else st := rfl

theorem runLoop_not_running (st : LoopState) (h : st.ms.running = false) :
    ∀ l : List IterInput, runLoop st l = st := by
  intro l
  cases l with
  | nil => rfl
  | cons inp rest => simp [runLoop_cons, h]

theorem runLoop_append (st : LoopState) (l1 l2 : List IterInput) :
    runLoop st (l1 ++ l2) = runLoop (runLoop st l1) l2 := by
  induction l1 generalizing st with
  | nil => rfl
  | cons inp rest ih =>
      by_cases h : st.ms.running = true
      · simp [runLoop_cons, h, ih]
      · simp only [Bool.not_eq_true] at h
        simp [runLoop_cons, h, runLoop_not_running _ h]

theorem triggerCheck_off (ms : ScopeState) (b : Bool)
    (h : ms.checkRecTrigger = false) : triggerCheck ms b = ms := by
  simp [triggerCheck, h]

/-! ## Claim theorems -/

/-- Claim C2, counterexample: on a fresh (never connected) controller whose
low-level `cam.open` fails (`openOk = false`), `connect` nevertheless
returns success and leaves `connected = true`, contradicting the claim
that an open failure is reported as failure without `connected = true`. -/
theorem connect_openFailure_reportsSuccess :
    (connect false initialScopeState).1 = true ∧
    (connect false initialScopeState).2.connected = true ∧
    (connect false initialScopeState).2.camOpen = false := by decide

/-- Claim C2 (amended): `connect()` returns failure exactly when the
controller is already connected; the result of the low-level open is never
checked, so even when the open fails `connect()` still applies the default
settings, sets `connected = true` and returns success. -/
theorem connect_result (openOk : Bool) (s : ScopeState) :
    (connect openOk s).1 = !s.connected ∧
    (connect openOk s).2.connected = true := by
  by_cases h : s.connected = true
  · simp [connect, h]
  · simp only [Bool.not_eq_true] at h
    simp [connect, h, setExcitation, setGain, setExposure]

/-- Claim C5, counterexample: `setExposure (-1)` stores `-1`, not the claimed
clamp `min (max (-1) 1) 100 = 1`. -/
theorem setExposure_negative_unclamped :
    (setExposure initialScopeState (-1)).exposure = -1 ∧
    (setExposure initialScopeState (-1)).exposure ≠ min (max (-1 : Int) 1) 100 := by
  decide

/-- Claim C5 (amended): `setExposure` maps `0` to `1` and clamps values above
`100` down to `100`, so for nonnegative inputs the stored exposure equals
`min (max e 1) 100`; negative inputs are stored unchanged (no lower
clamp). -/
theorem setExposure_stored (s : ScopeState) (e : Int) :
    (setExposure s e).exposure =
      if 0 ≤ e then min (max e 1) 100 else e := by
  simp only [setExposure, exposureSanitized]
  split_ifs <;> omega

/-- Claim C6, counterexample: `setLed (-50)` computes the device value
`-1/4`, which does not lie in `[0, 1/2]`, refuting the claim that every
integer input is mapped into `[0, 0.5]`. -/
theorem setLedValue_negative :
    setLedValue (-50) = -1/4 ∧ ¬ (0 ≤ setLedValue (-50)) := by
  constructor
  · norm_num [setLedValue]
  · norm_num [setLedValue]

/-- Claim C6 (amended): `setLed` clamps its input only from above at `100`;
the device value sent is `min (v, 100) / 200`, which is monotonically
increasing in the input over all integers and lies in `[0, 1/2]` for all
nonnegative inputs, but is negative for negative inputs (no lower
clamp). -/
theorem setLedValue_spec (v w : Int) :
    (v ≤ w → setLedValue v ≤ setLedValue w) ∧
    (0 ≤ v → 0 ≤ setLedValue v ∧ setLedValue v ≤ 1/2) ∧
    (v < 0 → setLedValue v < 0) := by
  have hval : ∀ z : Int, setLedValue z = ((min z 100 : Int) : ℚ) / 200 := by
    intro z
    simp only [setLedValue]
    split_ifs with h
    · rw [min_eq_right (by omega : (100 : Int) ≤ z)]
      ring
    · rw [min_eq_left (by omega : z ≤ (100 : Int))]
      ring
  refine ⟨?_, ?_, ?_⟩
  · intro hvw
    rw [hval v, hval w]
    have : ((min v 100 : Int) : ℚ) ≤ ((min w 100 : Int) : ℚ) := by
      exact_mod_cast min_le_min hvw le_rfl
    linarith
  · intro hv
    rw [hval v]
    have h1 : (0 : Int) ≤ min v 100 := le_min hv (by norm_num)
    have h2 : min v 100 ≤ (100 : Int) := min_le_right _ _
    have h1q : (0 : ℚ) ≤ ((min v 100 : Int) : ℚ) := by exact_mod_cast h1
    have h2q : ((min v 100 : Int) : ℚ) ≤ 100 := by exact_mod_cast h2
    constructor <;> linarith
  · intro hv
    rw [hval v]
    have h1 : min v 100 ≤ v := min_le_left _ _
    have h1q : ((min v 100 : Int) : ℚ) < 0 := by
      have : min v 100 < 0 := lt_of_le_of_lt h1 hv
      exact_mod_cast this
    linarith

/-- Claim C6 witness: the amended statement evaluated at inputs 3 and 7. -/
theorem setLedValue_spec_witness :
    (setLedValue 3 ≤ setLedValue 7) ∧
    (0 ≤ setLedValue 3 ∧ setLedValue 3 ≤ 1/2) ∧
    (setLedValue (-7) < 0) :=
  ⟨(setLedValue_spec 3 7).1 (by norm_num),
   (setLedValue_spec 3 7).2.1 (by norm_num),
   (setLedValue_spec (-7) 0).2.2 (by norm_num)⟩

/-- Claim C8, counterexample: at a wall-clock delta of zero milliseconds the
divisor of the FPS computation, namely `delta / 1000` is zero and the division by zero
is actually performed (`none`), refuting the claim that the computation is
guarded. -/
theorem computeFPS_zero_delta : computeFPS 0 = none := by
  simp [computeFPS]

/-- Claim C8 (amended): the telemetry computation has no zero-delta guard:
when the delta rounds to zero milliseconds the divisor is zero and a
division by zero occurs; for every nonzero delta the computation is safe
and yields `1000 / delta` frames per second. -/
theorem computeFPS_spec (d : Nat) :
    computeFPS d = if d = 0 then none else some (1000 / (d : ℚ)) := by
  rcases Nat.eq_zero_or_pos d with h | h
  · subst h
    simp [computeFPS]
  · have hd : (d : ℚ) ≠ 0 := by positivity
    have hdiv : ((d : ℚ) / 1000) ≠ 0 := by positivity
    simp only [computeFPS, if_neg hdiv, if_neg (Nat.pos_iff_ne_zero.mp h)]
    congr 1
    field_simp

/-- Claim C10: the public `recording()` accessor returns
`running && recording`; in particular it is false whenever `running` is
false, so recording is never observed true through the public API while
the loop is not running. -/
theorem recordingAccessor_spec (s : ScopeState) :
    (s.running = false → recordingAccessor s = false) ∧
    (recordingAccessor s = true ↔ s.running = true ∧ s.recording = true) := by
  constructor
  · intro h
    simp [recordingAccessor, h]
  · simp [recordingAccessor]

/-- Claim C10 witness: with `running = false` and the internal flag
`recording = true`, the accessor still reports false; with both flags true
it reports true. -/
theorem recordingAccessor_spec_witness :
    recordingAccessor { initialScopeState with recording := true } = false ∧
    recordingAccessor
      { initialScopeState with running := true, recording := true } = true :=
  ⟨(recordingAccessor_spec { initialScopeState with recording := true }).1 rfl,
   (recordingAccessor_spec
      { initialScopeState with running := true, recording := true }).2.mpr
      ⟨rfl, rfl⟩⟩

/-- Claim C1: on a connected controller in the `failed` state, `run()`
performs the disconnect, but `disconnect()` never clears `connected`, so
the recovery `connect()` always fails with the already-connected error and
`run()` returns false — for every `cam.open` oracle value; moreover
`failed` remains set (no code path ever clears it). -/
theorem run_failedState_neverRecovers (openOk : Bool) (s : ScopeState)
    (hconn : s.connected = true) (hfail : s.failed = true) :
    (run openOk s).1 = false ∧
    (run openOk s).2.failed = true ∧
    (run openOk s).2.connected = true ∧
    (run openOk s).2.running = false := by
  have hdc : (disconnect s).connected = true := hconn
  simp [run, hconn, hfail, connect, hdc, disconnect, stop]

/-- Claim C1 witness: the failed-recovery behaviour evaluated on a concrete
connected-and-failed controller with a succeeding open oracle. -/
theorem run_failedState_neverRecovers_witness :
    (run true failedConnectedState).1 = false ∧
    (run true failedConnectedState).2.failed = true ∧
    (run true failedConnectedState).2.connected = true ∧
    (run true failedConnectedState).2.running = false :=
  run_failedState_neverRecovers true failedConnectedState rfl rfl

/-- Claim C4: in color mode with the blue channel hidden, the frame pushed
into the ring buffer is the *untransformed* raw frame (its blue plane
intact) while the frame handed to the Recorder has the blue plane zeroed —
the visibility transform is applied to the recorded frame, not to the
display copy, the opposite of the claim (and of the comment in the source itself,
"record the raw frame to disk"). -/
theorem colorModePublish_transformsRecordedFrame :
    colorModePublish true true false ⟨[7], [5], [3]⟩ =
      (⟨[7], [5], [3]⟩, ⟨[0], [5], [3]⟩) ∧
    (colorModePublish true true false ⟨[7], [5], [3]⟩).1 ≠
      (colorModePublish true true false ⟨[7], [5], [3]⟩).2 := by
  decide

/-- `currentFrameOp` is exactly (head?, tail). -/
theorem currentFrameOp_eq {α : Type} (l : List α) :
    currentFrameOp l = (l.head?, l.tail) := by
  cases l <;> rfl

/-- Pushing any sequence onto a buffer holding at most 64 entries keeps
the most recent 64 entries of buffer-then-sequence. -/
theorem ringPushAll_drop {α : Type} (fs : List α) :
    ∀ b : List α, b.length ≤ 64 →
      ringPushAll b fs = (b ++ fs).drop (b.length + fs.length - 64) := by
  induction fs with
  | nil =>
      intro b hb
      simp only [ringPushAll, List.foldl_nil, List.append_nil, List.length_nil]
      rw [Nat.sub_eq_zero_of_le (by omega), List.drop_zero]
  | cons f fs ih =>
      intro b hb
      have hstep : ringPushAll b (f :: fs) = ringPushAll (ringPush b f) fs := rfl
      by_cases hfull : b.length = 64
      · have hbne : b ≠ [] := by
          intro h
          rw [h] at hfull
          simp at hfull
        have hlen : (b.tail ++ [f]).length = 64 := by
          simp [List.length_tail, hfull]
        rw [hstep]
        simp only [ringPush, frameRingCapacity, if_pos hfull]
        rw [ih (b.tail ++ [f]) (by omega), hlen]
        have harr : b.tail ++ [f] ++ fs = (b ++ f :: fs).tail := by
          rcases b with _ | ⟨x, xs⟩
          · exact absurd rfl hbne
          · simp
        rw [harr, ← List.drop_one, List.drop_drop]
        have heq : 1 + (64 + fs.length - 64) = b.length + (f :: fs).length - 64 := by
          simp only [List.length_cons, hfull]
          omega
        rw [heq]
      · have hlt : b.length < 64 := lt_of_le_of_ne hb hfull
        rw [hstep]
        simp only [ringPush, frameRingCapacity, if_neg hfull]
        rw [ih (b ++ [f]) (by simp only [List.length_append, List.length_singleton]; omega)]
        simp only [List.append_assoc, List.singleton_append, List.length_append,
          List.length_cons, List.length_nil]
        have heq : b.length + (0 + 1) + fs.length - 64 = b.length + (fs.length + 1) - 64 := by
          omega
        rw [heq]

/-- Claim C7: the ring buffer has capacity 64 with FIFO eviction: pushing 65
frames onto the empty buffer retains exactly the 64 most recent (the first
frame, the oldest, is evicted); `currentFrame` then pops and returns the
oldest retained entry; and on the empty buffer `currentFrame` returns the
empty sentinel. -/
theorem ringBuffer_fifo {α : Type} (fs : List α) (h : fs.length = 65) :
    ringPushAll [] fs = fs.tail ∧
    currentFrameOp (ringPushAll ([] : List α) fs) = (fs.tail.head?, fs.tail.tail) ∧
    currentFrameOp ([] : List α) = (none, ([] : List α)) := by
  have hall : ringPushAll ([] : List α) fs = fs.tail := by
    rw [ringPushAll_drop fs [] (by norm_num)]
    simp only [List.nil_append, List.length_nil, Nat.zero_add, h]
    rw [(by omega : 65 - 64 = 1), ← List.drop_one]
  exact ⟨hall, by rw [hall, currentFrameOp_eq], rfl⟩

/-- Claim C7 witness: the FIFO eviction law evaluated on the 65 frames
`0, 1, ..., 64`. -/
theorem ringBuffer_fifo_witness :
    ringPushAll [] (List.range 65) = (List.range 65).tail ∧
    currentFrameOp (ringPushAll ([] : List Nat) (List.range 65)) =
      ((List.range 65).tail.head?, (List.range 65).tail.tail) ∧
    currentFrameOp ([] : List Nat) = (none, ([] : List Nat)) :=
  ringBuffer_fifo (List.range 65) (by simp)

theorem triggerCheck_running (ms : ScopeState) (b : Bool) :
    (triggerCheck ms b).running = ms.running := by
  unfold triggerCheck
  split_ifs <;> rfl

theorem triggerCheck_dropped (ms : ScopeState) (b : Bool) :
    (triggerCheck ms b).droppedFramesCount = ms.droppedFramesCount := by
  unfold triggerCheck
  split_ifs <;> rfl

theorem captureStep_dropInput (st : LoopState) (d : Nat)
    (htrig : st.ms.checkRecTrigger = false) :
    captureStep st (dropInput d) = dropHandle st st.ms := by
  simp [captureStep, dropInput, triggerCheck_off _ _ htrig]

theorem captureStep_dropInput_low (st : LoopState) (d : Nat)
    (htrig : st.ms.checkRecTrigger = false)
    (hlow : st.ms.droppedFramesCount < 80) :
    (captureStep st (dropInput d)).ms.running = st.ms.running ∧
    (captureStep st (dropInput d)).ms.failed = st.ms.failed ∧
    (captureStep st (dropInput d)).ms.checkRecTrigger = false ∧
    (captureStep st (dropInput d)).ms.droppedFramesCount =
      st.ms.droppedFramesCount + 1 := by
  rw [captureStep_dropInput st d htrig]
  have h : ¬ (80 < st.ms.droppedFramesCount + 1) := by omega
  simp [dropHandle, h, htrig]

theorem captureStep_dropInput_ceiling (st : LoopState) (d : Nat)
    (htrig : st.ms.checkRecTrigger = false)
    (hhigh : 80 ≤ st.ms.droppedFramesCount) :
    (captureStep st (dropInput d)).ms.failed = true ∧
    (captureStep st (dropInput d)).ms.running = false ∧
    (captureStep st (dropInput d)).ms.recording = false := by
  rw [captureStep_dropInput st d htrig]
  have h : 80 < st.ms.droppedFramesCount + 1 := by omega
  simp [dropHandle, h, failTransition]

theorem captureStep_goodInput_fields (st : LoopState) (d : Nat)
    (htrig : st.ms.checkRecTrigger = false) :
    (captureStep st (goodInput d)).ms.running = st.ms.running ∧
    (captureStep st (goodInput d)).ms.failed = st.ms.failed ∧
    (captureStep st (goodInput d)).ms.droppedFramesCount = 0 ∧
    (captureStep st (goodInput d)).ms.checkRecTrigger = false := by
  have hstep : captureStep st (goodInput d) = goodHandle st st.ms d true := by
    simp [captureStep, goodInput, triggerCheck_off _ _ htrig]
  rw [hstep]
  by_cases hd : 0 < st.ms.droppedFramesCount <;>
    simp only [goodHandle, hd, if_true, if_false] <;>
    split_ifs <;>
    refine ⟨rfl, rfl, ?_, htrig⟩ <;>
    simp <;> omega

theorem runLoop_consecutiveDrops (n : Nat) :
    ∀ st : LoopState,
      st.ms.running = true → st.ms.failed = false →
      st.ms.checkRecTrigger = false →
      st.ms.droppedFramesCount + n ≤ 80 →
      (runLoop st (List.replicate n (dropInput 1))).ms.running = true ∧
      (runLoop st (List.replicate n (dropInput 1))).ms.failed = false ∧
      (runLoop st (List.replicate n (dropInput 1))).ms.checkRecTrigger = false ∧
      (runLoop st (List.replicate n (dropInput 1))).ms.droppedFramesCount =
        st.ms.droppedFramesCount + n := by
  induction n with
  | zero =>
      intro st h1 h2 h3 _
      exact ⟨h1, h2, h3, rfl⟩
  | succ n ih =>
      intro st h1 h2 h3 hb
      rw [List.replicate_succ, runLoop_cons]
      simp only [h1, if_true]
      have hlow : st.ms.droppedFramesCount < 80 := by omega
      have hf := captureStep_dropInput_low st 1 h3 hlow
      have := ih (captureStep st (dropInput 1))
        (hf.1.trans h1) (hf.2.1.trans h2) hf.2.2.1
        (by rw [hf.2.2.2]; omega)
      refine ⟨this.1, this.2.1, this.2.2.1, ?_⟩
      rw [this.2.2.2, hf.2.2.2]
      omega

/-- Claim C3: the drop-ceiling law of the capture loop, from a running,
non-failed state with a zeroed drop counter (the state at loop start or
right after a successful retrieve): for every `k ≤ 80`, `k` consecutive
failed retrieves leave the loop running and not failed with
`droppedFramesCount = k`; exactly 81 consecutive failed retrieves invoke
`fail` (setting `failed`, clearing `running` and `recording`) and the loop
consumes no further iteration; and 80 consecutive failed retrieves
followed by one successful retrieve reset `droppedFramesCount` to zero
with the loop still running and not failed. -/
theorem captureLoop_dropCeiling (st : LoopState)
    (hrun : st.ms.running = true) (hfail : st.ms.failed = false)
    (htrig : st.ms.checkRecTrigger = false)
    (hzero : st.ms.droppedFramesCount = 0) :
    (∀ k, k ≤ 80 →
      (runLoop st (List.replicate k (dropInput 1))).ms.running = true ∧
      (runLoop st (List.replicate k (dropInput 1))).ms.failed = false ∧
      (runLoop st (List.replicate k (dropInput 1))).ms.droppedFramesCount = k) ∧
    ((runLoop st (List.replicate 81 (dropInput 1))).ms.failed = true ∧
     (runLoop st (List.replicate 81 (dropInput 1))).ms.running = false ∧
     (runLoop st (List.replicate 81 (dropInput 1))).ms.recording = false ∧
     ∀ more, runLoop st (List.replicate 81 (dropInput 1) ++ more) =
       runLoop st (List.replicate 81 (dropInput 1))) ∧
    ((runLoop st (List.replicate 80 (dropInput 1) ++ [goodInput 1])).ms.droppedFramesCount = 0 ∧
     (runLoop st (List.replicate 80 (dropInput 1) ++ [goodInput 1])).ms.failed = false ∧
     (runLoop st (List.replicate 80 (dropInput 1) ++ [goodInput 1])).ms.running = true) := by
  have h80 := runLoop_consecutiveDrops 80 st hrun hfail htrig (by omega)
  set res80 := runLoop st (List.replicate 80 (dropInput 1)) with hres80
  have hd80 : res80.ms.droppedFramesCount = 80 := by
    rw [h80.2.2.2, hzero]
  refine ⟨?_, ?_, ?_⟩
  · intro k hk
    have h := runLoop_consecutiveDrops k st hrun hfail htrig (by omega)
    exact ⟨h.1, h.2.1, by rw [h.2.2.2, hzero]; omega⟩
  · have hsplit : List.replicate 81 (dropInput 1) =
        List.replicate 80 (dropInput 1) ++ [dropInput 1] := by
      rw [← List.replicate_succ']
    have h81 : runLoop st (List.replicate 81 (dropInput 1)) =
        captureStep res80 (dropInput 1) := by
      rw [hsplit, runLoop_append, ← hres80, runLoop_cons]
      simp only [h80.1, if_true, runLoop_nil]
    have hcs := captureStep_dropInput_ceiling res80 1 h80.2.2.1 (by omega)
    have hterm : (runLoop st (List.replicate 81 (dropInput 1))).ms.running = false := by
      rw [h81]
      exact hcs.2.1
    refine ⟨by rw [h81]; exact hcs.1, hterm, by rw [h81]; exact hcs.2.2, ?_⟩
    intro more
    rw [runLoop_append, runLoop_not_running _ hterm more]
  · have hgood : runLoop st (List.replicate 80 (dropInput 1) ++ [goodInput 1]) =
        captureStep res80 (goodInput 1) := by
      rw [runLoop_append, ← hres80, runLoop_cons]
      simp only [h80.1, if_true, runLoop_nil]
    have hf := captureStep_goodInput_fields res80 1 h80.2.2.1
    rw [hgood]
    exact ⟨hf.2.2.1, by rw [hf.2.1, h80.2.1], by rw [hf.1, h80.1]⟩

/-- Claim C3 witness: the drop-ceiling law evaluated on a freshly started
capture loop: 81 consecutive failed retrieves enter `failed` and stop the
loop; 80 failed retrieves followed by one success reset the counter
without failing. -/
theorem captureLoop_dropCeiling_witness :
    (runLoop runningLoopState (List.replicate 81 (dropInput 1))).ms.failed = true ∧
    (runLoop runningLoopState (List.replicate 81 (dropInput 1))).ms.running = false ∧
    (runLoop runningLoopState (List.replicate 80 (dropInput 1) ++ [goodInput 1])).ms.droppedFramesCount = 0 ∧
    (runLoop runningLoopState (List.replicate 80 (dropInput 1) ++ [goodInput 1])).ms.failed = false :=
  ⟨(captureLoop_dropCeiling runningLoopState rfl rfl rfl rfl).2.1.1,
   (captureLoop_dropCeiling runningLoopState rfl rfl rfl rfl).2.1.2.1,
   (captureLoop_dropCeiling runningLoopState rfl rfl rfl rfl).2.2.1,
   (captureLoop_dropCeiling runningLoopState rfl rfl rfl rfl).2.2.2.1⟩

theorem captureStep_notRecording (st : LoopState) (inp : IterInput)
    (h1 : st.ms.recording = false) (h2 : st.ms.checkRecTrigger = false)
    (h3 : st.writerInit = false) (h4 : st.recordFrames = false) :
    (captureStep st inp).ms.recording = false ∧
    (captureStep st inp).ms.checkRecTrigger = false ∧
    (captureStep st inp).writerInit = false ∧
    (captureStep st inp).recordFrames = false ∧
    (captureStep st inp).initCount = st.initCount ∧
    (captureStep st inp).encodeCount = st.encodeCount ∧
    (captureStep st inp).finalizeCount = st.finalizeCount := by
  simp only [captureStep, triggerCheck_off _ _ h2]
  by_cases hg : inp.grabOk = false
  · simp [hg, failTransition, h2, h3, h4]
  · simp only [hg, if_false]
    by_cases hr : inp.retrieveOk = false
    · simp only [hr, if_false, if_true, dropHandle]
      by_cases hc : 80 < st.ms.droppedFramesCount + 1 <;>
        simp [hc, failTransition, h2, h3, h4]
    · simp only [hr, if_false]
      by_cases hd : 0 < st.ms.droppedFramesCount <;>
        simp [goodHandle, hd, h1, h2, h3, h4]

theorem runLoop_notRecording (inputs : List IterInput) :
    ∀ st : LoopState, st.ms.recording = false →
      st.ms.checkRecTrigger = false → st.writerInit = false →
      st.recordFrames = false →
      (runLoop st inputs).writerInit = false ∧
      (runLoop st inputs).initCount = st.initCount ∧
      (runLoop st inputs).encodeCount = st.encodeCount ∧
      (runLoop st inputs).finalizeCount = st.finalizeCount := by
  induction inputs with
  | nil =>
      intro st _ _ h3 _
      exact ⟨h3, rfl, rfl, rfl⟩
  | cons inp rest ih =>
      intro st h1 h2 h3 h4
      by_cases hr : st.ms.running = true
      · rw [runLoop_cons]
        simp only [hr, if_true]
        have hs := captureStep_notRecording st inp h1 h2 h3 h4
        have := ih (captureStep st inp) hs.1 hs.2.1 hs.2.2.1 hs.2.2.2.1
        exact ⟨this.1,
          this.2.1.trans hs.2.2.2.2.1,
          this.2.2.1.trans hs.2.2.2.2.2.1,
          this.2.2.2.trans hs.2.2.2.2.2.2⟩
      · simp only [Bool.not_eq_true] at hr
        rw [runLoop_not_running st hr]
        exact ⟨h3, rfl, rfl, rfl⟩

theorem goodHandle_initCount_notRec (st : LoopState) (ms1 : ScopeState)
    (d : Nat) (i : Bool) (h : (ms1.running && ms1.recording) = false) :
    (goodHandle st ms1 d i).initCount = st.initCount := by
  by_cases hd : 0 < ms1.droppedFramesCount <;>
    simp only [goodHandle, hd, if_true, if_false] <;>
    simp only [h] <;>
    split_ifs <;> first | rfl | contradiction

theorem captureStep_initRequiresRecording (st : LoopState) (inp : IterInput)
    (hinit : st.initCount < (captureStep st inp).initCount) :
    inp.grabOk = true ∧ inp.retrieveOk = true ∧ st.ms.running = true ∧
    (triggerCheck st.ms inp.trigBit).recording = true := by
  by_cases hg : inp.grabOk = false
  · exfalso
    simp only [captureStep, hg, if_true] at hinit
    omega
  · simp only [Bool.not_eq_false] at hg
    by_cases hr : inp.retrieveOk = false
    · exfalso
      simp only [captureStep, hg, Bool.true_eq_false, if_false, hr, if_true,
        dropHandle] at hinit
      omega
    · simp only [Bool.not_eq_false] at hr
      have hstep : captureStep st inp =
          goodHandle st (triggerCheck st.ms inp.trigBit) inp.deltaMs inp.initOk := by
        simp [captureStep, hg, hr]
      rw [hstep] at hinit
      by_cases hra : ((triggerCheck st.ms inp.trigBit).running &&
          (triggerCheck st.ms inp.trigBit).recording) = true
      · simp only [Bool.and_eq_true] at hra
        obtain ⟨hrn, hrc⟩ := hra
        rw [triggerCheck_running] at hrn
        exact ⟨hg, hr, hrn, hrc⟩
      · exfalso
        simp only [Bool.not_eq_true] at hra
        rw [goodHandle_initCount_notRec st _ inp.deltaMs inp.initOk hra] at hinit
        omega

/-- Claim C9: `startRecording` only raises the `recording` flag — the
Recorder is initialized lazily by the capture loop.  Consequently, after
`startRecording` directly followed by `stopRecording`, a capture thread
that processes any sequence of frames (the external trigger disabled)
never initializes the Recorder, calls `encodeFrame` zero times and
performs zero initialize+finalize pairs; and in general a capture-loop
iteration can increment the initialize count only when it successfully
grabs and retrieves a frame while `running` and (post-trigger-check)
`recording` are both true. -/
theorem startRecording_lazyRecorder (openOk : Bool) (s : ScopeState)
    (ring : List LoopFrame) (inputs : List IterInput)
    (st2 : LoopState) (inp2 : IterInput)
    (hconn : s.connected = true) (hrun : s.running = true)
    (htrig : s.checkRecTrigger = false)
    (hinit : st2.initCount < (captureStep st2 inp2).initCount) :
    ((captureThread (stopRecording (startRecording openOk s).2) ring inputs).initCount = 0 ∧
     (captureThread (stopRecording (startRecording openOk s).2) ring inputs).encodeCount = 0 ∧
     (captureThread (stopRecording (startRecording openOk s).2) ring inputs).finalizeCount = 0 ∧
     (captureThread (stopRecording (startRecording openOk s).2) ring inputs).writerInit = false) ∧
    (inp2.grabOk = true ∧ inp2.retrieveOk = true ∧ st2.ms.running = true ∧
     (triggerCheck st2.ms inp2.trigBit).recording = true) := by
  constructor
  · have hsr : (startRecording openOk s).2 = { s with recording := true } := by
      simp [startRecording, hconn, hrun]
    rw [hsr]
    unfold captureThread
    have hinv := runLoop_notRecording inputs
      { ms := { stopRecording { s with recording := true } with
                droppedFramesCount := 0 },
        ring := ring, currentFPS := none, writerInit := false,
        recordFrames := false, initCount := 0, finalizeCount := 0,
        encodeCount := 0 } rfl htrig rfl rfl
    have hfw : ∀ x : LoopState, x.writerInit = false → finalizeWriter x = x := by
      intro x hx
      simp [finalizeWriter, hx]
    rw [hfw _ hinv.1]
    exact ⟨hinv.2.1, hinv.2.2.1, hinv.2.2.2, hinv.1⟩
  · exact captureStep_initRequiresRecording st2 inp2 hinit

/-- Claim C9 witness: the lazy-recording behaviour evaluated on a concrete
connected, running controller, a two-iteration input trace, and a concrete
recording-enabled loop state whose step initializes the writer. -/
theorem startRecording_lazyRecorder_witness :
    ((captureThread (stopRecording (startRecording true connectedRunningState).2)
        [] [dropInput 1, goodInput 1]).initCount = 0 ∧
     (captureThread (stopRecording (startRecording true connectedRunningState).2)
        [] [dropInput 1, goodInput 1]).encodeCount = 0 ∧
     (captureThread (stopRecording (startRecording true connectedRunningState).2)
        [] [dropInput 1, goodInput 1]).finalizeCount = 0 ∧
     (captureThread (stopRecording (startRecording true connectedRunningState).2)
        [] [dropInput 1, goodInput 1]).writerInit = false) ∧
    ((goodInput 1).grabOk = true ∧ (goodInput 1).retrieveOk = true ∧
     recordingLoopState.ms.running = true ∧
     (triggerCheck recordingLoopState.ms (goodInput 1).trigBit).recording = true) :=
  startRecording_lazyRecorder true connectedRunningState []
    [dropInput 1, goodInput 1] recordingLoopState (goodInput 1)
    rfl rfl rfl (by decide)

end MiniScope
